import Mathlib

/-!
Verification of the NIF_WA MRI analysis scripts
(`Magnetisation_Transfer/mt_calc.py` and `DTI_analysis/Basic_Metrics.py`).

The per-voxel arithmetic that `mt_calc.py` delegates to the external
`mrcalc` tool is embedded as elementwise operations on extended values —
finite rationals together with the two infinities and NaN — following the
IEEE-754 semantics that `mrcalc` applies to floating-point images (the
spec calls this "standard floating-point division semantics").  The
script-level control flow (which subprocesses are invoked, in which
order, and the final process exit status) is embedded as an explicit
list of planned invocations together with a step function executing them.
-/

/-- Extended per-voxel value: a finite rational, one of the two
infinities, or NaN. -/
inductive FVal where
  | fin : ℚ → FVal
  | posInf : FVal
  | negInf : FVal
  | nan : FVal
  deriving DecidableEq

/-- Elementwise multiplication with IEEE-754 style extended semantics:
NaN absorbs, infinity times zero is NaN, infinity times a nonzero finite
value is an infinity of the product sign. -/
def fmul : FVal → FVal → FVal
  | .nan, _ => .nan
  | _, .nan => .nan
  | .fin a, .fin b => .fin (a * b)
  | .fin a, .posInf => if a = 0 then .nan else if 0 < a then .posInf else .negInf
  | .fin a, .negInf => if a = 0 then .nan else if 0 < a then .negInf else .posInf
  | .posInf, .fin b => if b = 0 then .nan else if 0 < b then .posInf else .negInf
  | .negInf, .fin b => if b = 0 then .nan else if 0 < b then .negInf else .posInf
  | .posInf, .posInf => .posInf
  | .posInf, .negInf => .negInf
  | .negInf, .posInf => .negInf
  | .negInf, .negInf => .posInf

/-- Elementwise subtraction with IEEE-754 style extended semantics:
NaN absorbs, and the difference of equal-signed infinities is NaN. -/
def fsub : FVal → FVal → FVal
  | .nan, _ => .nan
  | _, .nan => .nan
  | .fin a, .fin b => .fin (a - b)
  | .fin _, .posInf => .negInf
  | .fin _, .negInf => .posInf
  | .posInf, .fin _ => .posInf
  | .negInf, .fin _ => .negInf
  | .posInf, .posInf => .nan
  | .posInf, .negInf => .posInf
  | .negInf, .posInf => .negInf
  | .negInf, .negInf => .nan

/-- Elementwise division with IEEE-754 style extended semantics: NaN
absorbs, a nonzero finite value divided by zero is a signed infinity,
zero divided by zero is NaN, a finite value divided by an infinity is
zero, and infinity divided by infinity is NaN.  (Rationals have no
signed zero; a zero divisor is treated like IEEE +0.) -/
def fdiv : FVal → FVal → FVal
  | .nan, _ => .nan
  | _, .nan => .nan
  | .fin a, .fin b =>
      if b = 0 then (if a = 0 then .nan else if 0 < a then .posInf else .negInf)
      else .fin (a / b)
  | .fin _, .posInf => .fin 0
  | .fin _, .negInf => .fin 0
  | .posInf, .fin b => if 0 ≤ b then .posInf else .negInf
  | .negInf, .fin b => if 0 ≤ b then .negInf else .posInf
  | .posInf, .posInf => .nan
  | .posInf, .negInf => .nan
  | .negInf, .posInf => .nan
  | .negInf, .negInf => .nan

/-- A value is non-finite when it is an infinity or NaN. -/
def FVal.nonFinite : FVal → Bool
  | .fin _ => false
  | _ => true

namespace MT

/-- Stage `R1` of `mt_calc.py` (line 96):
`mrcalc t1 {at1/TRt1} -mult {apd/TRpd} pd -mult -sub R1`,
i.e. per voxel `t1 * (at1/TRt1) - (apd/TRpd) * pd`. -/
def R1 (t1 pd : FVal) (at1 apd TRt1 TRpd : ℚ) : FVal :=
  fsub (fmul t1 (.fin (at1 / TRt1))) (fmul (.fin (apd / TRpd)) pd)

/-- Stage `R2` of `mt_calc.py` (line 97):
`mrcalc pd {apd} -div t1 {at1} -div -sub R2`,
i.e. per voxel `pd / apd - t1 / at1`. -/
def R2 (t1 pd : FVal) (at1 apd : ℚ) : FVal :=
  fsub (fdiv pd (.fin apd)) (fdiv t1 (.fin at1))

/-- Stage `R` of `mt_calc.py` (line 98):
`mrcalc R1 R2 -div 2 -div R`, i.e. per voxel `(R1 / R2) / 2`. -/
def R (t1 pd : FVal) (at1 apd TRt1 TRpd : ℚ) : FVal :=
  fdiv (fdiv (R1 t1 pd at1 apd TRt1 TRpd) (R2 t1 pd at1 apd)) (.fin 2)

/-- Stage `A1` of `mt_calc.py` (line 107):
`mrcalc pd t1 -mult {(TRpd*at1/apd)-(TRt1*apd/at1)} -mult A1`. -/
def A1 (t1 pd : FVal) (at1 apd TRt1 TRpd : ℚ) : FVal :=
  fmul (fmul pd t1) (.fin (TRpd * at1 / apd - TRt1 * apd / at1))

/-- Stage `A2` of `mt_calc.py` (line 108):
`mrcalc t1 {TRpd*at1} -mult pd {TRt1*apd} -mult -sub A2`. -/
def A2 (t1 pd : FVal) (at1 apd TRt1 TRpd : ℚ) : FVal :=
  fsub (fmul t1 (.fin (TRpd * at1))) (fmul pd (.fin (TRt1 * apd)))

/-- Stage `A` of `mt_calc.py` (line 109): `mrcalc A1 A2 -div A`. -/
def A (t1 pd : FVal) (at1 apd TRt1 TRpd : ℚ) : FVal :=
  fdiv (A1 t1 pd at1 apd TRt1 TRpd) (A2 t1 pd at1 apd TRt1 TRpd)

/-- Stage `M1` of `mt_calc.py` (line 120):
`mrcalc A {amt} -mult mt -div 1 -sub M1`,
i.e. per voxel `(A * amt) / mt - 1`. -/
def M1 (t1 pd mt : FVal) (at1 apd amt TRt1 TRpd : ℚ) : FVal :=
  fsub (fdiv (fmul (A t1 pd at1 apd TRt1 TRpd) (.fin amt)) mt) (.fin 1)

/-- Stage `M2` of `mt_calc.py` (line 121): `mrcalc {TRmt} R -mult M2`. -/
def M2 (t1 pd : FVal) (at1 apd TRt1 TRpd TRmt : ℚ) : FVal :=
  fmul (.fin TRmt) (R t1 pd at1 apd TRt1 TRpd)

/-- Scalar constant `M3 = amt * amt / 2` of `mt_calc.py` (line 118),
computed in Python, not per voxel. -/
def M3 (amt : ℚ) : ℚ := amt * amt / 2

/-- Terminal stage of `mt_calc.py` (line 122):
`mrcalc M1 M2 -mult {M3} -sub save_file`, i.e. per voxel `M1 * M2 - M3`. -/
def MTsat (t1 pd mt : FVal) (at1 apd amt TRt1 TRpd TRmt : ℚ) : FVal :=
  fsub (fmul (M1 t1 pd mt at1 apd amt TRt1 TRpd)
             (M2 t1 pd at1 apd TRt1 TRpd TRmt)) (.fin (M3 amt))

end MT

/-- The spec §4.3 formula for the relaxation rate, written exactly as the
spec states it: `R1 = 0.5 * num / den` with
`num = (at1/TRt1)*t1v - (apd/TRpd)*pdv` and `den = pdv/apd - t1v/at1`.
This is the spec-side definition used to compare against the code. -/
def specR (t1v pdv at1 apd TRt1 TRpd : ℚ) : ℚ :=
  0.5 * ((at1 / TRt1) * t1v - (apd / TRpd) * pdv) / (pdv / apd - t1v / at1)

/-- The spec §4.4 formula for the amplitude, written exactly as the spec
states it: `A = A1 / A2` with
`A1 = pdv*t1v*((TRpd*at1/apd) - (TRt1*apd/at1))` and
`A2 = TRpd*at1*t1v - TRt1*apd*pdv`. -/
def specA (t1v pdv at1 apd TRt1 TRpd : ℚ) : ℚ :=
  (pdv * t1v * ((TRpd * at1 / apd) - (TRt1 * apd / at1))) /
    (TRpd * at1 * t1v - TRt1 * apd * pdv)

/-- The spec §4.5 formula for the saturation map, written exactly as the
spec states it: `MTsat = ((amt * A / mtv) - 1) * (TRmt * R1) - amt^2/2`,
with `A` and `R1` the §4.3/§4.4 scalar formulas. -/
def specMTsat (t1v pdv mtv at1 apd amt TRt1 TRpd TRmt : ℚ) : ℚ :=
  ((amt * specA t1v pdv at1 apd TRt1 TRpd / mtv) - 1) *
      (TRmt * specR t1v pdv at1 apd TRt1 TRpd) - amt * amt / 2

/-- One element of a `subprocess.run` argument list.  Python string
arguments (paths, operators) are `str`; numbers serialized through an
f-string are `num`; a raw Python `int` placed in the list — which makes
`subprocess.run` raise `TypeError` before any process starts — is `int`. -/
inductive Arg where
  | str : String → Arg
  | num : ℚ → Arg
  | int : ℤ → Arg
  deriving DecidableEq

/-- Detects a raw Python `int` in an argument list. -/
def isIntArg : Arg → Bool
  | .int _ => true
  | _ => false

/-- An argument list is malformed when it holds a raw Python `int`:
`subprocess.run` then raises `TypeError` instead of running the tool. -/
def hasBad (c : List Arg) : Bool := c.any isIntArg

namespace MT

/-- Command-line configuration of `mt_calc.py` (argparse, lines 31–45):
the two boolean flags and the seven integer options. -/
structure Config where
  singleecho : Bool
  nocleanup : Bool
  gauss : ℤ
  at1 : ℤ
  apd : ℤ
  amt : ℤ
  TRt1 : ℤ
  TRpd : ℤ
  TRmt : ℤ
  deriving DecidableEq

/-- Name bound to the Python variable `t1` after the averaging block
(lines 53, 62–64): the converted file, or the echo-average if averaging
ran. -/
def t1pre (td : String) (cfg : Config) : String :=
  if cfg.singleecho then td ++ ("/t1_converted.nii") else td ++ ("/t1_avg.nii")

/-- Name bound to the Python variable `pd` after the averaging block. -/
def pdpre (td : String) (cfg : Config) : String :=
  if cfg.singleecho then td ++ ("/pd_converted.nii") else td ++ ("/pd_avg.nii")

/-- Name bound to the Python variable `mt` after the averaging block. -/
def mtpre (td : String) (cfg : Config) : String :=
  if cfg.singleecho then td ++ ("/mt_converted.nii") else td ++ ("/mt_avg.nii")

/-- Name bound to the Python variable `t1` after the gauss block
(lines 72–74): the filtered file when `gauss > 0`, else unchanged. -/
def t1cur (td : String) (cfg : Config) : String :=
  if 0 < cfg.gauss then td ++ ("/t1_filtered.nii") else t1pre td cfg

/-- Name bound to the Python variable `pd` after the gauss block. -/
def pdcur (td : String) (cfg : Config) : String :=
  if 0 < cfg.gauss then td ++ ("/pd_filtered.nii") else pdpre td cfg

/-- Name bound to the Python variable `mt` after the gauss block. -/
def mtcur (td : String) (cfg : Config) : String :=
  if 0 < cfg.gauss then td ++ ("/mt_filtered.nii") else mtpre td cfg

/-- The three `nanconvert_bruker` invocations (lines 57–59). -/
def convertCmds (t1f pdf mtf td : String) : List (List Arg) :=
  [[.str ("nanconvert_bruker"), .str t1f, .str (td ++ ("/t1_converted.nii"))],
   [.str ("nanconvert_bruker"), .str pdf, .str (td ++ ("/pd_converted.nii"))],
   [.str ("nanconvert_bruker"), .str mtf, .str (td ++ ("/mt_converted.nii"))]]

/-- The three `mrmath ... mean ... -axis 3` invocations (lines 63–67),
run only when `--singleecho` is absent. -/
def avgCmds (td : String) : List (List Arg) :=
  [[.str ("mrmath"), .str (td ++ ("/t1_converted.nii")), .str ("mean"),
    .str (td ++ ("/t1_avg.nii")), .str ("-axis"), .str ("3")],
   [.str ("mrmath"), .str (td ++ ("/pd_converted.nii")), .str ("mean"),
    .str (td ++ ("/pd_avg.nii")), .str ("-axis"), .str ("3")],
   [.str ("mrmath"), .str (td ++ ("/mt_converted.nii")), .str ("mean"),
    .str (td ++ ("/mt_avg.nii")), .str ("-axis"), .str ("3")]]

/-- The three `mrfilter ... smooth ... -extent gauss` invocations
(lines 73–77), run only when `gauss > 0`.  Note the source passes the
Python `int` variable `gauss` itself — not `str(gauss)` — as the last
argument, so these lists are malformed. -/
def filterCmds (td : String) (cfg : Config) : List (List Arg) :=
  [[.str ("mrfilter"), .str (t1pre td cfg), .str ("smooth"),
    .str (td ++ ("/t1_filtered.nii")), .str ("-extent"), .int cfg.gauss],
   [.str ("mrfilter"), .str (pdpre td cfg), .str ("smooth"),
    .str (td ++ ("/pd_filtered.nii")), .str ("-extent"), .int cfg.gauss],
   [.str ("mrfilter"), .str (mtpre td cfg), .str ("smooth"),
    .str (td ++ ("/mt_filtered.nii")), .str ("-extent"), .int cfg.gauss]]

/-- The nine `mrcalc` invocations (lines 96–122), with the Python
f-string numeric arguments carried as exact rationals. -/
def calcCmds (td save : String) (cfg : Config) : List (List Arg) :=
  let t1 := t1cur td cfg
  let pd := pdcur td cfg
  let mt := mtcur td cfg
  let at1 : ℚ := cfg.at1
  let apd : ℚ := cfg.apd
  let amt : ℚ := cfg.amt
  let TRt1 : ℚ := cfg.TRt1
  let TRpd : ℚ := cfg.TRpd
  let TRmt : ℚ := cfg.TRmt
  [[.str ("mrcalc"), .str t1, .num (at1 / TRt1), .str ("-mult"),
    .num (apd / TRpd), .str pd, .str ("-mult"), .str ("-sub"), .str (td ++ ("/R1.nii"))],
   [.str ("mrcalc"), .str pd, .num apd, .str ("-div"), .str t1, .num at1,
    .str ("-div"), .str ("-sub"), .str (td ++ ("/R2.nii"))],
   [.str ("mrcalc"), .str (td ++ ("/R1.nii")), .str (td ++ ("/R2.nii")),
    .str ("-div"), .str ("2"), .str ("-div"), .str (td ++ ("/R.nii"))],
   [.str ("mrcalc"), .str pd, .str t1, .str ("-mult"),
    .num (TRpd * at1 / apd - TRt1 * apd / at1), .str ("-mult"), .str (td ++ ("/A1.nii"))],
   [.str ("mrcalc"), .str t1, .num (TRpd * at1), .str ("-mult"), .str pd,
    .num (TRt1 * apd), .str ("-mult"), .str ("-sub"), .str (td ++ ("/A2.nii"))],
   [.str ("mrcalc"), .str (td ++ ("/A1.nii")), .str (td ++ ("/A2.nii")),
    .str ("-div"), .str (td ++ ("/A.nii"))],
   [.str ("mrcalc"), .str (td ++ ("/A.nii")), .num amt, .str ("-mult"), .str mt,
    .str ("-div"), .str ("1"), .str ("-sub"), .str (td ++ ("/M1.nii"))],
   [.str ("mrcalc"), .num TRmt, .str (td ++ ("/R.nii")), .str ("-mult"),
    .str (td ++ ("/M2.nii"))],
   [.str ("mrcalc"), .str (td ++ ("/M1.nii")), .str (td ++ ("/M2.nii")),
    .str ("-mult"), .num (amt * amt / 2), .str ("-sub"), .str save]]

/-- The `rm -r -I tempdir` invocation (line 127), run only when the
`--nocleanup` flag IS set (the source's condition is `if args.nocleanup:`). -/
def rmCmd (td : String) : List Arg :=
  [.str ("rm"), .str ("-r"), .str ("-I"), .str td]

/-- The full ordered list of subprocess invocations `mt_calc.py` plans,
as a function of the configuration (lines 57–127). -/
def invocations (cfg : Config) (t1f pdf mtf save td : String) : List (List Arg) :=
  convertCmds t1f pdf mtf td
    ++ (if cfg.singleecho then [] else avgCmds td)
    ++ (if 0 < cfg.gauss then filterCmds td cfg else [])
    ++ calcCmds td save cfg
    ++ (if cfg.nocleanup then [rmCmd td] else [])

/-- Executes a list of planned invocations the way the Python interpreter
does: a malformed list (raw `int` argument) raises an uncaught
`TypeError`, terminating the script with exit status 1 before that
command runs; otherwise the command is launched and — because the script
never inspects `subprocess.run`'s return value — execution continues
regardless of the tool's exit status, ending at `exit()` with status 0.
Returns the invocations actually launched and the process exit status. -/
def execCmds : List (List Arg) → List (List Arg) × ℕ
  | [] => ([], 0)
  | c :: rest =>
      if hasBad c then ([], 1)
      else
        let p := execCmds rest
        (c :: p.1, p.2)

/-- A whole run of `mt_calc.py`.  The `status` argument assigns to each
launched invocation the exit status of the delegated external tool; the
script discards every `subprocess.run` result, so the parameter is never
consulted. -/
def runScript (cfg : Config) (t1f pdf mtf save td : String) (status : ℕ → ℤ) :
    List (List Arg) × ℕ :=
  execCmds (invocations cfg t1f pdf mtf save td)

/-- Error taxonomy entry relevant to the averaging stage (spec §7). -/
inductive MTError where
  | ShapeMismatch
  deriving DecidableEq

/-- A volume: either 3-D (voxel list, no echo axis) or 4-D (one voxel
list per echo frame along axis 3). -/
inductive Image where
  | vol3 : List ℚ → Image
  | vol4 : List (List ℚ) → Image
  deriving DecidableEq

/-- Per-voxel mean across the echo frames of a 4-D volume. -/
def meanAcrossEchoes (frames : List (List ℚ)) : List ℚ :=
  (List.range (frames.headD []).length).map
    (fun i => ((frames.map (fun fr => fr.getD i 0)).sum) / (frames.length : ℚ))

/-- Modelled from the spec: the delegated `mrmath input mean output -axis 3`
collaborator (external MRtrix tool; `mt_calc.py` lines 63–67 only invoke
it).  Per spec §4.1 it averages across the echo axis, reducing the shape
by that axis, and fails with ShapeMismatch when the volume has no echo
axis. -/
def mrmathMeanAxis3 : Image → Except MTError Image
  | .vol3 _ => .error .ShapeMismatch
  | .vol4 frames => .ok (.vol3 (meanAcrossEchoes frames))

/-- The temporal-averaging stage (lines 62–68): with `--singleecho` the
volume passes through untouched, otherwise the `mrmath` mean over axis 3
is applied. -/
def temporalAverager (singleecho : Bool) (img : Image) : Except MTError Image :=
  if singleecho then .ok img else mrmathMeanAxis3 img

end MT

namespace DTI

/-- Per-magnitude thresholding performed by the awk program of
`Basic_Metrics.py` line 42: a field below 500 is replaced by 0, any
other field is left unchanged. -/
def awkThresh (m : ℚ) : ℚ := if m < 500 then 0 else m

/-- The awk program applied to one line of the `.bval` file: the
threshold is applied to every field. -/
def awkThreshLine (line : List ℚ) : List ℚ := line.map awkThresh

/-- The literal awk program text of `Basic_Metrics.py` line 42. -/
def awkProg : String :=
  "\x7b for (i = 1; i <= NF; i++) if ($i < 500) $i = 0; print\x7d"

/-- The ordered list of subprocess invocations of `Basic_Metrics.py`
(lines 37–54) as a function of the parsed arguments.  The `b0f`
parameter is the parsed `--b0_file` argument (line 29); the source never
uses it after parsing, so it appears in no invocation. -/
def dtiInvocations (scanf faf rdf adcf b0f td : String) : List (List Arg) :=
  [[.str ("nanconvert_bruker"), .str scanf, .str (td ++ ("/dti_scan.nii"))],
   [.str ("awk"), .str ("-i"), .str ("inplace"), .str awkProg,
    .str (td ++ ("/dti_scan.bval"))],
   [.str ("mrconvert"), .str ("-fslgrad"), .str (td ++ ("/dti_scan.bvec")),
    .str (td ++ ("/dti_scan.bval")), .str (td ++ ("/dti_scan.nii")),
    .str (td ++ ("/dti_scan.mih"))],
   [.str ("dwi2tensor"), .str (td ++ ("/dti_scan.mih")),
    .str (td ++ ("/dti_tensor.mih"))],
   [.str ("tensor2metric"), .str ("-fa"), .str faf, .str ("-rd"), .str rdf,
    .str ("-adc"), .str adcf, .str (td ++ ("/dti_tensor.mih"))]]

end DTI

/-- C1: for uniform constant input volumes with T1v = 100, PDv = 80,
MTv = 50 and parameters at1 = 20, apd = 6, amt = 6, TRt1 = 18,
TRpd = 25, TRmt = 25, the pipeline's terminal MTsat value equals the
scalar obtained by evaluating the spec §4.3–§4.5 formulas directly
(exactly, in rational arithmetic — hence certainly to floating
tolerance), namely 2338/25 = 93.52; the scalar `amt*amt/2` is subtracted
uniformly. -/
theorem mtsat_uniform_defaults_matches_spec :
    MT.MTsat (.fin 100) (.fin 80) (.fin 50) 20 6 6 18 25 25
        = FVal.fin (specMTsat 100 80 50 20 6 6 18 25 25)
      ∧ specMTsat 100 80 50 20 6 6 18 25 25 = 2338 / 25 := by
  constructor
  · norm_num [MT.MTsat, MT.M1, MT.M2, MT.M3, MT.A, MT.A1, MT.A2, MT.R, MT.R1,
      MT.R2, fdiv, fmul, fsub, specMTsat, specA, specR]
  · norm_num [specMTsat, specA, specR]

/-- C2: for every voxel with finite intensities t1v and pdv, strictly
positive flip angles, and a nonzero spec §4.3 denominator, the
relaxation-rate stage of `mt_calc.py` outputs exactly
`0.5 * ((at1/TRt1)*t1v - (apd/TRpd)*pdv) / (pdv/apd - t1v/at1)`. -/
theorem relaxation_stage_matches_spec (t1v pdv at1 apd TRt1 TRpd : ℚ)
    (h1 : 0 < at1) (h2 : 0 < apd) (hden : pdv / apd - t1v / at1 ≠ 0) :
    MT.R (.fin t1v) (.fin pdv) at1 apd TRt1 TRpd
      = .fin (0.5 * ((at1 / TRt1) * t1v - (apd / TRpd) * pdv)
          / (pdv / apd - t1v / at1)) := by
  have ha : apd ≠ 0 := ne_of_gt h2
  have hb : at1 ≠ 0 := ne_of_gt h1
  norm_num [MT.R, MT.R1, MT.R2, fmul, fsub, fdiv, ha, hb, hden]
  ring

/-- C2 witness: the relaxation-rate stage evaluated at t1v = 100,
pdv = 80 with the default parameters. -/
theorem relaxation_stage_matches_spec_witness :
    ((0 : ℚ) < 20 ∧ (0 : ℚ) < 6 ∧ ((80 : ℚ) / 6 - 100 / 20 ≠ 0))
      ∧ MT.R (.fin 100) (.fin 80) 20 6 18 25
          = .fin (0.5 * ((20 / 18) * 100 - (6 / 25) * 80) / (80 / 6 - 100 / 20)) :=
  ⟨⟨by norm_num, by norm_num, by norm_num⟩,
   relaxation_stage_matches_spec 100 80 20 6 18 25
     (by norm_num) (by norm_num) (by norm_num)⟩

/-- C3: for every voxel with finite intensities t1v and pdv and a
nonzero spec §4.4 denominator, the amplitude stage of `mt_calc.py`
outputs exactly
`(pdv*t1v*((TRpd*at1/apd) - (TRt1*apd/at1))) / (TRpd*at1*t1v - TRt1*apd*pdv)`. -/
theorem amplitude_stage_matches_spec (t1v pdv at1 apd TRt1 TRpd : ℚ)
    (hden : TRpd * at1 * t1v - TRt1 * apd * pdv ≠ 0) :
    MT.A (.fin t1v) (.fin pdv) at1 apd TRt1 TRpd
      = .fin ((pdv * t1v * ((TRpd * at1 / apd) - (TRt1 * apd / at1)))
          / (TRpd * at1 * t1v - TRt1 * apd * pdv)) := by
  have hd : t1v * (TRpd * at1) - pdv * (TRt1 * apd) ≠ 0 := by
    intro h; exact hden (by linear_combination h)
  norm_num [MT.A, MT.A1, MT.A2, fmul, fsub, fdiv, hd]
  ring

/-- C3 witness: the amplitude stage evaluated at t1v = 100, pdv = 80
with the default parameters. -/
theorem amplitude_stage_matches_spec_witness :
    ((25 : ℚ) * 20 * 100 - 18 * 6 * 80 ≠ 0)
      ∧ MT.A (.fin 100) (.fin 80) 20 6 18 25
          = .fin ((80 * 100 * ((25 * 20 / 6) - (18 * 6 / 20)))
              / (25 * 20 * 100 - 18 * 6 * 80)) :=
  ⟨by norm_num, amplitude_stage_matches_spec 100 80 20 6 18 25 (by norm_num)⟩

/-- A non-finite left factor makes the extended product non-finite. -/
theorem fmul_nonFinite_left (a b : FVal) (h : a.nonFinite = true) :
    (fmul a b).nonFinite = true := by
  cases a <;> cases b <;> simp_all [fmul, FVal.nonFinite] <;> split_ifs <;> rfl

/-- A non-finite right factor makes the extended product non-finite. -/
theorem fmul_nonFinite_right (a b : FVal) (h : b.nonFinite = true) :
    (fmul a b).nonFinite = true := by
  cases a <;> cases b <;> simp_all [fmul, FVal.nonFinite] <;> split_ifs <;> rfl

/-- A non-finite minuend makes the extended difference non-finite. -/
theorem fsub_nonFinite_left (a b : FVal) (h : a.nonFinite = true) :
    (fsub a b).nonFinite = true := by
  cases a <;> cases b <;> simp_all [fsub, FVal.nonFinite]

/-- A non-finite numerator makes the extended quotient non-finite. -/
theorem fdiv_nonFinite_left (a b : FVal) (h : a.nonFinite = true) :
    (fdiv a b).nonFinite = true := by
  cases a <;> cases b <;> simp_all [fdiv, FVal.nonFinite] <;> split_ifs <;> rfl

/-- Division by an exactly-zero finite value is always non-finite. -/
theorem fdiv_fin_zero_nonFinite (a : FVal) :
    (fdiv a (.fin 0)).nonFinite = true := by
  cases a <;> simp [fdiv, FVal.nonFinite] <;> split_ifs <;> rfl

/-- Executing a list of well-formed invocations launches all of them and
exits with status 0, whatever the tools themselves return. -/
theorem execCmds_good (l : List (List Arg)) (h : ∀ c ∈ l, hasBad c = false) :
    MT.execCmds l = (l, 0) := by
  induction l with
  | nil => rfl
  | cons c rest ih =>
      have hc : hasBad c = false := h c (by simp)
      have hr : ∀ x ∈ rest, hasBad x = false := fun x hx => h x (by simp [hx])
      simp [MT.execCmds, hc, ih hr]

/-- A well-formed prefix is launched in full before the rest is handled. -/
theorem execCmds_append_good (l1 l2 : List (List Arg))
    (h : ∀ c ∈ l1, hasBad c = false) :
    MT.execCmds (l1 ++ l2) = (l1 ++ (MT.execCmds l2).1, (MT.execCmds l2).2) := by
  induction l1 with
  | nil => simp
  | cons c rest ih =>
      have hc : hasBad c = false := h c (by simp)
      have hr : ∀ x ∈ rest, hasBad x = false := fun x hx => h x (by simp [hx])
      simp [MT.execCmds, hc, ih hr]

/-- A malformed invocation at the front terminates the script with exit
status 1 and launches nothing further. -/
theorem execCmds_bad_head (c : List Arg) (l : List (List Arg))
    (h : hasBad c = true) : MT.execCmds (c :: l) = ([], 1) := by
  simp [MT.execCmds, h]

/-- The conversion commands carry no raw int argument. -/
theorem convertCmds_good (a b c d : String) :
    ∀ x ∈ MT.convertCmds a b c d, hasBad x = false := by
  intro x hx
  simp only [MT.convertCmds, List.mem_cons, List.not_mem_nil, or_false] at hx
  rcases hx with rfl | rfl | rfl <;> rfl

/-- The averaging commands carry no raw int argument. -/
theorem avgCmds_good (td : String) : ∀ x ∈ MT.avgCmds td, hasBad x = false := by
  intro x hx
  simp only [MT.avgCmds, List.mem_cons, List.not_mem_nil, or_false] at hx
  rcases hx with rfl | rfl | rfl <;> rfl

/-- The mrcalc commands carry no raw int argument. -/
theorem calcCmds_good (td save : String) (cfg : MT.Config) :
    ∀ x ∈ MT.calcCmds td save cfg, hasBad x = false := by
  intro x hx
  simp only [MT.calcCmds, List.mem_cons, List.not_mem_nil, or_false] at hx
  rcases hx with rfl | rfl | rfl | rfl | rfl | rfl | rfl | rfl | rfl <;> rfl

/-- The cleanup command carries no raw int argument. -/
theorem rmCmd_good (td : String) : hasBad (MT.rmCmd td) = false := rfl

/-- With a nonpositive gauss extent no invocation is malformed. -/
theorem invocations_good (cfg : MT.Config) (t1f pdf mtf save td : String)
    (hg : cfg.gauss ≤ 0) :
    ∀ c ∈ MT.invocations cfg t1f pdf mtf save td, hasBad c = false := by
  intro c hc
  have hng : ¬ (0 < cfg.gauss) := by omega
  rw [MT.invocations, if_neg hng] at hc
  simp only [List.append_assoc, List.nil_append, List.append_nil,
    List.mem_append] at hc
  rcases hc with hc | hc | hc | hc
  · exact convertCmds_good t1f pdf mtf td c hc
  · by_cases hse : cfg.singleecho = true
    · rw [if_pos hse] at hc; simp at hc
    · rw [if_neg hse] at hc; exact avgCmds_good td c hc
  · exact calcCmds_good td save cfg c hc
  · by_cases hnc : cfg.nocleanup = true
    · rw [if_pos hnc] at hc
      simp only [List.mem_singleton] at hc
      subst hc
      exact rmCmd_good td
    · rw [if_neg hnc] at hc; simp at hc

/-- Without smoothing the script launches every planned invocation and
ends at `exit()` with status 0, for any tool statuses whatsoever. -/
theorem runScript_gauss_nonpos (cfg : MT.Config) (t1f pdf mtf save td : String)
    (st : ℕ → ℤ) (hg : cfg.gauss ≤ 0) :
    MT.runScript cfg t1f pdf mtf save td st
      = (MT.invocations cfg t1f pdf mtf save td, 0) := by
  rw [MT.runScript]
  exact execCmds_good _ (invocations_good cfg t1f pdf mtf save td hg)

/-- With a positive gauss extent the first `mrfilter` invocation raises
`TypeError` (raw int in the argument list) and the script dies with exit
status 1. -/
theorem runScript_gauss_pos (cfg : MT.Config) (t1f pdf mtf save td : String)
    (st : ℕ → ℤ) (hg : 0 < cfg.gauss) :
    (MT.runScript cfg t1f pdf mtf save td st).2 = 1 := by
  rw [MT.runScript, MT.invocations, if_pos hg]
  simp only [List.append_assoc]
  rw [execCmds_append_good _ _ (convertCmds_good t1f pdf mtf td)]
  have hbad : MT.execCmds (MT.filterCmds td cfg ++ (MT.calcCmds td save cfg
      ++ (if cfg.nocleanup then [MT.rmCmd td] else []))) = ([], 1) := by
    rw [MT.filterCmds, List.cons_append]
    exact execCmds_bad_head _ _ rfl
  by_cases hse : cfg.singleecho = true
  · rw [if_pos hse, List.nil_append, hbad]
  · rw [if_neg hse, execCmds_append_good _ _ (avgCmds_good td), hbad]

/-- C4 counterexample: the first delegated tool (the T1 conversion)
returns status 1, yet every one of the twelve planned invocations —
including all nine later mrcalc stages — is still launched, and the
process exit code is 0.  So a failing stage neither halts the pipeline
nor yields a nonzero exit code. -/
theorem tool_failure_does_not_halt_counterexample :
    (fun n => if n = 0 then (1 : ℤ) else 0) 0 ≠ 0
      ∧ MT.runScript ⟨true, false, 0, 20, 6, 6, 18, 25, 25⟩ ("t1raw") ("pdraw")
            ("mtraw") ("out.mif") ("tmp") (fun n => if n = 0 then (1 : ℤ) else 0)
          = (MT.invocations ⟨true, false, 0, 20, 6, 6, 18, 25, 25⟩ ("t1raw")
              ("pdraw") ("mtraw") ("out.mif") ("tmp"), 0) := by
  constructor
  · decide
  · exact runScript_gauss_nonpos _ _ _ _ _ _ _ (le_refl 0)

/-- C4 amended: `mt_calc.py` never consults the statuses of the delegated
tools.  The run's outcome is literally independent of them; when no
smoothing is requested every planned stage is launched and the exit code
is 0 regardless of any tool failures; and the only nonzero exit arises
from the malformed `mrfilter` invocation when gauss is positive, which
kills the script before any filter runs. -/
theorem tool_statuses_never_consulted (cfg : MT.Config)
    (t1f pdf mtf save td : String) (st st2 : ℕ → ℤ) :
    MT.runScript cfg t1f pdf mtf save td st
        = MT.runScript cfg t1f pdf mtf save td st2
      ∧ (cfg.gauss ≤ 0 → MT.runScript cfg t1f pdf mtf save td st
          = (MT.invocations cfg t1f pdf mtf save td, 0))
      ∧ (0 < cfg.gauss → (MT.runScript cfg t1f pdf mtf save td st).2 = 1) :=
  ⟨rfl, fun hg => runScript_gauss_nonpos cfg t1f pdf mtf save td st hg,
    fun hg => runScript_gauss_pos cfg t1f pdf mtf save td st hg⟩

/-- C4 amended, witness: both hypotheses discharged at concrete inputs —
a default configuration (gauss 0) and a smoothing configuration (gauss 1). -/
theorem tool_statuses_never_consulted_witness :
    ((⟨true, false, 0, 20, 6, 6, 18, 25, 25⟩ : MT.Config).gauss ≤ 0
      ∧ 0 < (⟨true, false, 1, 20, 6, 6, 18, 25, 25⟩ : MT.Config).gauss)
    ∧ MT.runScript ⟨true, false, 0, 20, 6, 6, 18, 25, 25⟩ ("a") ("b") ("c") ("o")
          ("tmp") (fun _ => 37)
        = MT.runScript ⟨true, false, 0, 20, 6, 6, 18, 25, 25⟩ ("a") ("b") ("c")
          ("o") ("tmp") (fun _ => 0)
    ∧ MT.runScript ⟨true, false, 0, 20, 6, 6, 18, 25, 25⟩ ("a") ("b") ("c") ("o")
          ("tmp") (fun _ => 37)
        = (MT.invocations ⟨true, false, 0, 20, 6, 6, 18, 25, 25⟩ ("a") ("b") ("c")
            ("o") ("tmp"), 0)
    ∧ (MT.runScript ⟨true, false, 1, 20, 6, 6, 18, 25, 25⟩ ("a") ("b") ("c") ("o")
          ("tmp") (fun _ => 37)).2 = 1 :=
  ⟨⟨by decide, by decide⟩,
   (tool_statuses_never_consulted ⟨true, false, 0, 20, 6, 6, 18, 25, 25⟩
      ("a") ("b") ("c") ("o") ("tmp") (fun _ => 37) (fun _ => 0)).1,
   (tool_statuses_never_consulted ⟨true, false, 0, 20, 6, 6, 18, 25, 25⟩
      ("a") ("b") ("c") ("o") ("tmp") (fun _ => 37) (fun _ => 0)).2.1 (by decide),
   (tool_statuses_never_consulted ⟨true, false, 1, 20, 6, 6, 18, 25, 25⟩
      ("a") ("b") ("c") ("o") ("tmp") (fun _ => 37) (fun _ => 0)).2.2 (by decide)⟩

/-- C5: the cleanup condition is inverted with respect to the script's
own documentation.  In a default run (retention NOT requested,
`--nocleanup` absent) the removal command is never launched, so the
scratch directory is kept; with `--nocleanup` set (retention requested)
the removal command IS launched.  This is the opposite of the claim. -/
theorem cleanup_condition_inverted :
    (MT.rmCmd ("tmp") ∉ (MT.runScript ⟨true, false, 0, 20, 6, 6, 18, 25, 25⟩
        ("a") ("b") ("c") ("o") ("tmp") (fun _ => 0)).1)
    ∧ MT.rmCmd ("tmp") ∈ (MT.runScript ⟨true, true, 0, 20, 6, 6, 18, 25, 25⟩
        ("a") ("b") ("c") ("o") ("tmp") (fun _ => 0)).1 := by
  constructor <;> decide

/-- C6: with kernel extent 0 the smoothing stage is the identity (the
three volume bindings are left exactly as the averaging stage produced
them and no `mrfilter` invocation is planned), but with extent 1 the
script dies with exit status 1 — `subprocess.run` raises `TypeError` on
the raw int extent argument — after launching only the three conversion
commands, so no Gaussian filter is ever applied. -/
theorem gauss_filter_raises_typeerror :
    ((MT.runScript ⟨true, false, 1, 20, 6, 6, 18, 25, 25⟩ ("a") ("b") ("c") ("o")
        ("tmp") (fun _ => 0)).2 = 1
      ∧ (MT.runScript ⟨true, false, 1, 20, 6, 6, 18, 25, 25⟩ ("a") ("b") ("c") ("o")
          ("tmp") (fun _ => 0)).1 = MT.convertCmds ("a") ("b") ("c") ("tmp"))
    ∧ (MT.t1cur ("tmp") ⟨true, false, 0, 20, 6, 6, 18, 25, 25⟩
          = MT.t1pre ("tmp") ⟨true, false, 0, 20, 6, 6, 18, 25, 25⟩
        ∧ MT.pdcur ("tmp") ⟨true, false, 0, 20, 6, 6, 18, 25, 25⟩
          = MT.pdpre ("tmp") ⟨true, false, 0, 20, 6, 6, 18, 25, 25⟩
        ∧ MT.mtcur ("tmp") ⟨true, false, 0, 20, 6, 6, 18, 25, 25⟩
          = MT.mtpre ("tmp") ⟨true, false, 0, 20, 6, 6, 18, 25, 25⟩) :=
  ⟨⟨rfl, rfl⟩, rfl, rfl, rfl⟩

/-- C7: with the single-echo flag the temporal-averaging stage passes
every volume through unchanged; without it, a volume with no echo axis
fails with ShapeMismatch, and a 4-D volume is reduced to a 3-D volume
(shape reduced by the echo axis) whose voxel i is the mean of voxel i
across the echo frames. -/
theorem temporal_averager_behaviour (img : MT.Image) (v : List ℚ)
    (frames : List (List ℚ)) (i : ℕ)
    (h : i < (MT.meanAcrossEchoes frames).length) :
    MT.temporalAverager true img = .ok img
    ∧ MT.temporalAverager false (.vol3 v) = .error .ShapeMismatch
    ∧ MT.temporalAverager false (.vol4 frames)
        = .ok (.vol3 (MT.meanAcrossEchoes frames))
    ∧ (MT.meanAcrossEchoes frames).length = (frames.headD []).length
    ∧ (MT.meanAcrossEchoes frames).getD i 0
        = ((frames.map (fun fr => fr.getD i 0)).sum) / (frames.length : ℚ) := by
  refine ⟨rfl, rfl, rfl, by simp [MT.meanAcrossEchoes], ?_⟩
  rw [List.getD_eq_getElem _ _ h]
  simp only [MT.meanAcrossEchoes, List.getElem_map, List.getElem_range]

/-- C7 witness: the averager evaluated on a one-voxel 3-D volume and a
two-voxel, two-echo 4-D volume. -/
theorem temporal_averager_behaviour_witness :
    0 < (MT.meanAcrossEchoes [[(1 : ℚ), 3], [3, 5]]).length
    ∧ (MT.temporalAverager true (.vol3 [(1 : ℚ)]) = .ok (.vol3 [(1 : ℚ)])
      ∧ MT.temporalAverager false (.vol3 [(2 : ℚ)]) = .error .ShapeMismatch
      ∧ MT.temporalAverager false (.vol4 [[(1 : ℚ), 3], [3, 5]])
          = .ok (.vol3 (MT.meanAcrossEchoes [[(1 : ℚ), 3], [3, 5]]))
      ∧ (MT.meanAcrossEchoes [[(1 : ℚ), 3], [3, 5]]).length
          = (([[(1 : ℚ), 3], [3, 5]] : List (List ℚ)).headD []).length
      ∧ (MT.meanAcrossEchoes [[(1 : ℚ), 3], [3, 5]]).getD 0 0
          = ((([[(1 : ℚ), 3], [3, 5]] : List (List ℚ)).map
                (fun fr => fr.getD 0 0)).sum)
              / ((([[(1 : ℚ), 3], [3, 5]] : List (List ℚ)).length : ℚ))) :=
  ⟨by norm_num [MT.meanAcrossEchoes],
   temporal_averager_behaviour (.vol3 [(1 : ℚ)]) [(2 : ℚ)] [[(1 : ℚ), 3], [3, 5]] 0
     (by norm_num [MT.meanAcrossEchoes])⟩

/-- C8: at every voxel where a formula denominator — the §4.3 relaxation
denominator, the §4.4 amplitude denominator A2, or the MT-weighted
intensity mtv — is exactly 0, the terminal MTsat voxel is NaN or an
infinity under the extended floating-point semantics; and (for the
configurations without smoothing, where all arithmetic stages run) the
pipeline never halts and exits with status 0 whatever the per-voxel data
made the tools report, since no voxel value is ever escalated to a fatal
error. -/
theorem zero_denominator_nonfinite_not_fatal
    (t1v pdv mtv at1 apd amt TRt1 TRpd TRmt : ℚ)
    (h1 : 0 < at1) (h2 : 0 < apd)
    (hzero : pdv / apd - t1v / at1 = 0
      ∨ TRpd * at1 * t1v - TRt1 * apd * pdv = 0 ∨ mtv = 0) :
    (MT.MTsat (.fin t1v) (.fin pdv) (.fin mtv) at1 apd amt TRt1 TRpd TRmt).nonFinite
        = true
      ∧ ∀ (se nc : Bool) (f : String) (st : ℕ → ℤ),
          (MT.runScript ⟨se, nc, 0, 20, 6, 6, 18, 25, 25⟩ f f f f f st).2 = 0 := by
  constructor
  · rcases hzero with h | h | h
    · have ha : apd ≠ 0 := ne_of_gt h2
      have hb : at1 ≠ 0 := ne_of_gt h1
      have hR2 : MT.R2 (.fin t1v) (.fin pdv) at1 apd = .fin 0 := by
        norm_num [MT.R2, fdiv, fsub, ha, hb, h]
      have hR : (MT.R (.fin t1v) (.fin pdv) at1 apd TRt1 TRpd).nonFinite = true := by
        rw [MT.R, hR2]
        exact fdiv_nonFinite_left _ _ (fdiv_fin_zero_nonFinite _)
      rw [MT.MTsat]
      exact fsub_nonFinite_left _ _ (fmul_nonFinite_right _ _
        (by rw [MT.M2]; exact fmul_nonFinite_right _ _ hR))
    · have hA2 : MT.A2 (.fin t1v) (.fin pdv) at1 apd TRt1 TRpd = .fin 0 := by
        norm_num [MT.A2, fmul, fsub]
        linear_combination h
      have hA : (MT.A (.fin t1v) (.fin pdv) at1 apd TRt1 TRpd).nonFinite = true := by
        rw [MT.A, hA2]
        exact fdiv_fin_zero_nonFinite _
      rw [MT.MTsat]
      refine fsub_nonFinite_left _ _ (fmul_nonFinite_left _ _ ?_)
      rw [MT.M1]
      exact fsub_nonFinite_left _ _ (fdiv_nonFinite_left _ _
        (fmul_nonFinite_left _ _ hA))
    · subst h
      rw [MT.MTsat]
      refine fsub_nonFinite_left _ _ (fmul_nonFinite_left _ _ ?_)
      rw [MT.M1]
      exact fsub_nonFinite_left _ _ (fdiv_fin_zero_nonFinite _)
  · intro se nc f st
    rw [runScript_gauss_nonpos _ _ _ _ _ _ st (le_refl 0)]

/-- C8 witness: an MT-weighted intensity of exactly 0 with the default
parameters yields a non-finite MTsat voxel, and the pipeline still exits
with status 0. -/
theorem zero_denominator_nonfinite_not_fatal_witness :
    ((0 : ℚ) < 20 ∧ (0 : ℚ) < 6
      ∧ ((80 : ℚ) / 6 - 100 / 20 = 0
          ∨ (25 : ℚ) * 20 * 100 - 18 * 6 * 80 = 0 ∨ (0 : ℚ) = 0))
    ∧ ((MT.MTsat (.fin 100) (.fin 80) (.fin 0) 20 6 6 18 25 25).nonFinite = true
      ∧ ∀ (se nc : Bool) (f : String) (st : ℕ → ℤ),
          (MT.runScript ⟨se, nc, 0, 20, 6, 6, 18, 25, 25⟩ f f f f f st).2 = 0) :=
  ⟨⟨by norm_num, by norm_num, Or.inr (Or.inr rfl)⟩,
   zero_denominator_nonfinite_not_fatal 100 80 0 20 6 6 18 25 25
     (by norm_num) (by norm_num) (Or.inr (Or.inr rfl))⟩

/-- C9: every field of a `.bval` line below 500 is replaced by 0 and
every field at or above 500 passes through unchanged, and the claimed
check vector (0, 299, 300, 499, 500, 501, 1000) maps to
(0, 0, 0, 0, 500, 501, 1000). -/
theorem gradient_threshold_behaviour (line : List ℚ) (i : ℕ)
    (h : i < line.length) :
    ((line.getD i 0 < 500 → (DTI.awkThreshLine line).getD i 0 = 0)
      ∧ (500 ≤ line.getD i 0 → (DTI.awkThreshLine line).getD i 0 = line.getD i 0))
    ∧ DTI.awkThreshLine [0, 299, 300, 499, 500, 501, 1000]
        = [0, 0, 0, 0, 500, 501, 1000] := by
  have hlen : i < (DTI.awkThreshLine line).length := by
    simpa [DTI.awkThreshLine] using h
  constructor
  · constructor
    · intro hm
      rw [List.getD_eq_getElem _ _ h] at hm
      rw [List.getD_eq_getElem _ _ hlen]
      simp only [DTI.awkThreshLine, List.getElem_map]
      simp [DTI.awkThresh, hm]
    · intro hm
      rw [List.getD_eq_getElem _ _ h] at hm ⊢
      rw [List.getD_eq_getElem _ _ hlen]
      simp only [DTI.awkThreshLine, List.getElem_map]
      simp [DTI.awkThresh, not_lt.mpr hm]
  · norm_num [DTI.awkThreshLine, DTI.awkThresh]

/-- C9 witness: the thresholding evaluated at the first field (value 0,
below the threshold) of the claimed check vector. -/
theorem gradient_threshold_behaviour_witness :
    0 < ([(0 : ℚ), 299, 300, 499, 500, 501, 1000]).length
    ∧ ((([(0 : ℚ), 299, 300, 499, 500, 501, 1000]).getD 0 0 < 500 →
          (DTI.awkThreshLine [(0 : ℚ), 299, 300, 499, 500, 501, 1000]).getD 0 0 = 0)
        ∧ (500 ≤ ([(0 : ℚ), 299, 300, 499, 500, 501, 1000]).getD 0 0 →
            (DTI.awkThreshLine [(0 : ℚ), 299, 300, 499, 500, 501, 1000]).getD 0 0
              = ([(0 : ℚ), 299, 300, 499, 500, 501, 1000]).getD 0 0))
      ∧ DTI.awkThreshLine [0, 299, 300, 499, 500, 501, 1000]
          = [0, 0, 0, 0, 500, 501, 1000] :=
  ⟨by norm_num,
   gradient_threshold_behaviour [(0 : ℚ), 299, 300, 499, 500, 501, 1000] 0
     (by norm_num)⟩

/-- C10: the parsed `--b0_file` argument influences nothing — the planned
invocations are identical for any two values of it — and at the default
argument values no invocation mentions the B0 path at all, while the
`tensor2metric` invocation does carry the FA, RD and ADC output paths.
So the FA/RD/ADC maps are written but no operation ever writes a B0
image. -/
theorem b0_file_argument_never_used :
    (∀ s fa rd adc b0 b0q td : String,
        DTI.dtiInvocations s fa rd adc b0 td
          = DTI.dtiInvocations s fa rd adc b0q td)
    ∧ ((DTI.dtiInvocations ("scan") ("fa_map.nii") ("rd_map.nii") ("adc_map.nii")
          ("b0_image.nii") ("tmp")).all
        (fun c => c.all (fun a => a != Arg.str ("b0_image.nii")))) = true
    ∧ ((DTI.dtiInvocations ("scan") ("fa_map.nii") ("rd_map.nii") ("adc_map.nii")
          ("b0_image.nii") ("tmp")).any
        (fun c => c.contains (Arg.str ("fa_map.nii"))
          && c.contains (Arg.str ("rd_map.nii"))
          && c.contains (Arg.str ("adc_map.nii")))) = true := by
  refine ⟨fun s fa rd adc b0 b0q td => rfl, ?_, ?_⟩ <;> decide
